import Mathlib

/-
Verification of the national-rail departure-board integration:
a shallow embedding of custom_components/nationalrailtimes/{apidata,sensor,api}.py.
JSON documents decoded from the Darwin API are modelled by the inductive
type JValue; Python attribute errors, type errors and index errors raised
by the code are modelled by Except String results.
-/

namespace NationalRail

/-- JSON-like values as decoded from the Darwin API response. -/
inductive JValue where
  | null : JValue
  | bool : Bool → JValue
  | num : Int → JValue
  | str : String → JValue
  | arr : List JValue → JValue
  | obj : List (String × JValue) → JValue

/-- Python truthiness of a decoded JSON value. -/
def pyTruthy : JValue → Bool
  | .null => false
  | .bool b => b
  | .num n => n != 0
  | .str s => s != ""
  | .arr xs => !xs.isEmpty
  | .obj fs => !fs.isEmpty

/-- First-match association lookup, the semantics of a Python dict
(keys are unique in a decoded JSON object). -/
def alookup : List (String × JValue) → String → Option JValue
  | [], _ => none
  | p :: rest, k => if p.1 = k then some p.2 else alookup rest k

/-- Key lookup on a value known to be an object; none otherwise. -/
def jLookup : JValue → String → Option JValue
  | .obj fs, k => alookup fs k
  | _, _ => none

/-- Python d.get(k, dflt): only mappings have a get attribute, every
other receiver raises AttributeError. -/
def pyDictGet (v : JValue) (k : String) (dflt : JValue) : Except String JValue :=
  match v with
  | .obj fs => .ok ((alookup fs k).getD dflt)
  | _ => .error "AttributeError"

/-- Total variant of get used only where the receiver is already known
to be a mapping. -/
def jGetD (v : JValue) (k : String) (dflt : JValue) : JValue :=
  match v with
  | .obj fs => (alookup fs k).getD dflt
  | _ => dflt

/-- Python iteration: a list yields its elements, a dict yields its keys,
a string yields its characters as one-character strings, anything else
raises TypeError. -/
def pyIter : JValue → Except String (List JValue)
  | .arr xs => .ok xs
  | .obj fs => .ok (fs.map (fun p => JValue.str p.1))
  | .str s => .ok (s.data.map (fun c => JValue.str (String.mk [c])))
  | _ => .error "TypeError"

/-- Python v[0]: IndexError on an empty list or string, KeyError on a
JSON object (whose keys are strings, never the integer 0), TypeError
on an unsubscriptable value. -/
def pyIndexZero : JValue → Except String JValue
  | .arr [] => .error "IndexError"
  | .arr (x :: _) => .ok x
  | .str s =>
    match s.data with
    | [] => .error "IndexError"
    | c :: _ => .ok (JValue.str (String.mk [c]))
  | .obj _ => .error "KeyError"
  | _ => .error "TypeError"

/-- Python str.lower, character by character (the fields involved are
plain ASCII). -/
def pyLower (s : String) : String :=
  String.mk (s.data.map Char.toLower)

/-- Python str.capitalize: first character upper-cased, the rest
lower-cased. -/
def pyCapitalize (s : String) : String :=
  match s.data with
  | [] => ""
  | c :: cs => String.mk (c.toUpper :: cs.map Char.toLower)

/-- Modelled from the spec: the repository delegates time parsing to an
external library (dateutil.parser.parse), whose code is not part of this
repository. The spec says times are parsed and reformatted as HH:MM, with
examples such as the string 14:05:00 formatting to 14:05, the string 14:32
formatting to 14:32, and garbage failing to parse. The model accepts
colon-separated H:MM or HH:MM or HH:MM:SS strings with in-range fields and
rejects everything else. The colon split below mirrors the splitting
behaviour of str.split on one character. -/
def splitOnColon : List Char → List (List Char)
  | [] => [[]]
  | c :: cs =>
    if c = ':' then [] :: splitOnColon cs
    else
      match splitOnColon cs with
      | [] => [[c]]
      | g :: gs => (c :: g) :: gs

/-- A non-empty all-digit character group read as a number. -/
def digitsToNat? (cs : List Char) : Option Nat :=
  if cs ≠ [] ∧ cs.all Char.isDigit then
    some (cs.foldl (fun acc c => acc * 10 + (c.toNat - 48)) 0)
  else none

/-- Modelled from the spec: the parse step itself, over the colon-split
character groups of the input. -/
def parseTime (s : String) : Option (Nat × Nat) :=
  match splitOnColon s.data with
  | [h, m] =>
    match digitsToNat? h, digitsToNat? m with
    | some hn, some mn => if hn < 24 && mn < 60 then some (hn, mn) else none
    | _, _ => none
  | [h, m, sec] =>
    match digitsToNat? h, digitsToNat? m, digitsToNat? sec with
    | some hn, some mn, some sn =>
      if hn < 24 && mn < 60 && sn < 60 then some (hn, mn) else none
    | _, _, _ => none
  | _ => none

/-- Two-digit zero padding, as produced by strftime. -/
def pad2 (n : Nat) : String :=
  if n < 10 then "0" ++ toString n else toString n

/-- strftime with the format HH:MM applied to a parsed time. -/
def formatHM (hm : Nat × Nat) : String :=
  pad2 hm.1 ++ ":" ++ pad2 hm.2

/-
apidata.py: the ApiData response normalizer. Accessors that only read the
raw document are embedded as functions of the raw JValue; the two stateful
members (populate, get_station_name) are embedded over ApiDataState below.
-/

/-- ApiData.get_data restricted to the stored raw document: returns the
raw document, or an empty mapping when it is falsy. -/
def get_dataJ (raw : JValue) : JValue :=
  if pyTruthy raw then raw else .obj []

/-- The comparison destination.get("crs") == station performed by
get_destination_data: true exactly when the crs field holds that string. -/
def crsMatches (station : String) (d : JValue) : Bool :=
  match jLookup d "crs" with
  | some (.str s) => decide (s = station)
  | _ => false

/-- The inner loop of get_destination_data over a destination list:
destination.get raises AttributeError on a non-mapping element. -/
def find_crs : List JValue → String → Except String Bool
  | [], _ => .ok false
  | d :: rest, station =>
    match d with
    | .obj _ =>
      if crsMatches station d then .ok true else find_crs rest station
    | _ => .error "AttributeError"

/-- The outer loop of get_destination_data over the service iterator:
for each service read its destination field (AttributeError on a
non-mapping service), branch on list versus mapping shape, and fall
through on any other shape. -/
def find_dest : List JValue → String → Except String (Option JValue)
  | [], _ => .ok none
  | svc :: rest, station =>
    match pyDictGet svc "destination" (.arr []) with
    | .error e => .error e
    | .ok dests =>
      match dests with
      | .arr ds =>
        match find_crs ds station with
        | .error e => .error e
        | .ok true => .ok (some svc)
        | .ok false => find_dest rest station
      | .obj _ =>
        if crsMatches station dests then .ok (some svc)
        else find_dest rest station
      | _ => find_dest rest station

/-- ApiData.get_destination_data: scan trainServices (default empty list)
and return the first service whose destination matches the station code,
or an empty mapping when none matches. Iterating a non-iterable
trainServices value raises, as does attribute access on a non-mapping
element. -/
def get_destination_data (raw : JValue) (station : String) : Except String JValue :=
  match pyDictGet (get_dataJ raw) "trainServices" (.arr []) with
  | .error e => .error e
  | .ok services =>
    match pyIter services with
    | .error e => .error e
    | .ok l =>
      match find_dest l station with
      | .error e => .error e
      | .ok (some svc) => .ok svc
      | .ok none => .ok (.obj [])

/-- dict.pop(k, None) applied to a shallow copy: drop the binding of k. -/
def eraseKey : List (String × JValue) → String → List (String × JValue)
  | [], _ => []
  | p :: rest, k => if p.1 = k then eraseKey rest k else p :: eraseKey rest k

/-- ApiData.get_service_details: the matched service without its
subsequentCallingPoints key (computed on a copy), or an empty mapping when
the matched service is falsy. -/
def get_service_details (raw : JValue) (crs : String) : Except String JValue :=
  match get_destination_data raw crs with
  | .error e => .error e
  | .ok service =>
    if pyTruthy service then
      match service with
      | .obj fs => .ok (.obj (eraseKey fs "subsequentCallingPoints"))
      | _ => .error "TypeError"
    else .ok (.obj [])

/-- ApiData.get_calling_points: the callingPoint list of the first group
of subsequentCallingPoints of the matched service, when that chain holds
a truthy list of groups and an inner list; an empty list otherwise. -/
def get_calling_points (raw : JValue) (station : String) : Except String (List JValue) :=
  match get_destination_data raw station with
  | .error e => .error e
  | .ok service =>
    match pyDictGet service "subsequentCallingPoints" (.arr []) with
    | .error e => .error e
    | .ok grp =>
      match grp with
      | .arr (first :: _) =>
        match pyDictGet first "callingPoint" (.arr []) with
        | .error e => .error e
        | .ok cps =>
          match cps with
          | .arr l => .ok l
          | _ => .ok []
      | _ => .ok []

/-- ApiData.get_destination_name: locationName of the destination of the
matched service, branching on list versus mapping shape; indexing an
empty destination list raises IndexError, attribute access on a
non-mapping first element raises AttributeError. -/
def get_destination_name (raw : JValue) (crs : String) : Except String JValue :=
  match get_destination_data raw crs with
  | .error e => .error e
  | .ok service =>
    match pyDictGet service "destination" (.arr []) with
    | .error e => .error e
    | .ok dests =>
      match dests with
      | .arr [] => .error "IndexError"
      | .arr (d :: _) =>
        match d with
        | .obj dfs => .ok ((alookup dfs "locationName").getD (.str "Unknown Destination"))
        | _ => .error "AttributeError"
      | .obj dfs => .ok ((alookup dfs "locationName").getD (.str "Unknown Destination"))
      | _ => .ok (.str "Unknown Destination")

/-- ApiData.get_state: the std of the matched service details reformatted
as HH:MM; the string None when the details or the std are falsy; the
uncaught library exception when a truthy std does not parse. -/
def get_state (raw : JValue) (crs : String) : Except String String :=
  match get_service_details raw crs with
  | .error e => .error e
  | .ok service =>
    if pyTruthy service then
      match pyDictGet service "std" .null with
      | .error e => .error e
      | .ok std =>
        if pyTruthy std then
          match std with
          | .str s =>
            match parseTime s with
            | some hm => .ok (formatHM hm)
            | none => .error "ParserError"
          | _ => .error "TypeError"
        else .ok "None"
    else .ok "None"

/-- The mutable fields of ApiData touched by the claims: the raw document
and the cached station name (initially the empty string). The last-update
timestamp is wall-clock time and is not modelled. -/
structure ApiDataState where
  raw_result : JValue
  station_name : JValue

/-- ApiData.__init__ . -/
def ApiData.init : ApiDataState :=
  { raw_result := .obj [], station_name := .str "" }

/-- ApiData.populate: replace the raw document. -/
def populate (json_data : JValue) (s : ApiDataState) : ApiDataState :=
  { s with raw_result := json_data }

/-- ApiData.get_station_name: when the cached name is falsy, read
locationName (default Unknown Station) from the current document and
store it; return the cached value. Returns the value and the new state. -/
def get_station_name (s : ApiDataState) : Except String (JValue × ApiDataState) :=
  if pyTruthy s.station_name then .ok (s.station_name, s)
  else
    match pyDictGet (get_dataJ s.raw_result) "locationName" (.str "Unknown Station") with
    | .error e => .error e
    | .ok v => .ok (v, { s with station_name := v })

/-
api.py: the Api wrapper. Only the service-hours gate is needed by the
claims; the HTTP request itself is an external collaborator whose outcome
enters the update cycle as an optional decoded document.
-/

/-- Default service_start_hour of Api.__init__ . -/
def default_service_start_hour : Nat := 5

/-- Default service_end_hour of Api.__init__ . -/
def default_service_end_hour : Nat := 23

/-- Api.is_service_available: false when the current hour is before the
start hour or at or after the end hour, true otherwise. -/
def is_service_available (hour service_start_hour service_end_hour : Nat) : Bool :=
  if hour < service_start_hour ∨ service_end_hour ≤ hour then false else true

/-
sensor.py: the NationalrailSensor state deriver.
-/

/-- NationalrailSensor.parse_train_time: lower-case the etd field (default
empty string; attribute access on a non-string raises), return the
capitalized status word for delayed or cancelled, fall back to std
(default Unknown) when etd is on time, then parse and format the chosen
value as HH:MM; the surrounding try converts every parse failure,
including parsing a non-string, into the string Invalid time. -/
def parse_train_time (svc : JValue) : Except String String :=
  match pyDictGet svc "etd" (.str "") with
  | .error e => .error e
  | .ok ev =>
    match ev with
    | .str e0 =>
      let ntt := pyLower e0
      if ntt = "delayed" ∨ ntt = "cancelled" then .ok (pyCapitalize ntt)
      else
        match (if ntt = "on time" then jGetD svc "std" (.str "Unknown") else .str ntt) with
        | .str s =>
          match parseTime s with
          | some hm => .ok (formatHM hm)
          | none => .ok "Invalid time"
        | _ => .ok "Invalid time"
    | _ => .error "AttributeError"

/-- The mutable fields of NationalrailSensor touched by the claims. -/
structure SensorState where
  state : Option String
  last_data : JValue
  service_data : JValue
  station_name : JValue
  destination_name : JValue

/-- NationalrailSensor.__init__ : the field values relevant to the
claims (state None, empty last-known data, empty service list, and the
configured station and destination codes as initial display names). -/
def SensorState.init (station destination : String) : SensorState :=
  { state := none, last_data := .obj [], service_data := .arr [],
    station_name := .str station, destination_name := .str destination }

/-- NationalrailSensor.async_update as a state transition. The fetch
outcome is passed in as the awaited api_request value (none models the
Python None returned on any transport, status or decoding failure). The
returned flag records whether the fetch operation was invoked. The
function is total: the try block of the source converts every exception
raised inside one cycle into a diagnostic state string, so no exception
propagates to the host. -/
def async_update (available : Bool) (result : Option JValue) (s : SensorState) :
    SensorState × Bool :=
  if available then
    match result with
    | some (.obj fs) =>
      let sn := (alookup fs "locationName").getD (.str "Unknown")
      let dn := (alookup fs "filterLocationName").getD (.str "Unknown")
      let sd := (alookup fs "trainServices").getD (.arr [])
      let s1 : SensorState :=
        { s with station_name := sn, destination_name := dn, service_data := sd }
      match sd with
      | .arr [] =>
        ({ s1 with state := some "No train services available for this station",
                   last_data := .obj fs }, true)
      | .arr (first :: _) =>
        match parse_train_time first with
        | .ok st => ({ s1 with state := some st, last_data := .obj fs }, true)
        | .error _ => ({ s1 with state := some "Error fetching or parsing API data" }, true)
      | _ =>
        ({ s1 with service_data := .arr [],
                   state := some "Error: Invalid train service data" }, true)
    | _ => ({ s with state := some "Error: Invalid API response" }, true)
  else ({ s with state := some "No train services expected" }, false)

/-- One calling-point view of extra_state_attributes: locationName, st
(falling back to the legacy time key) and et, each defaulting to
Unknown; attribute access on a non-mapping point raises. -/
def attr_point_view (point : JValue) : Except String JValue :=
  match point with
  | .obj pfs =>
    .ok (.obj [("locationName", (alookup pfs "locationName").getD (.str "Unknown")),
               ("st", (alookup pfs "st").getD ((alookup pfs "time").getD (.str "Unknown"))),
               ("et", (alookup pfs "et").getD (.str "Unknown"))])
  | _ => .error "AttributeError"

/-- Total form of the calling-point view, agreeing with attr_point_view
on mapping points. -/
def attr_point_viewT (point : JValue) : JValue :=
  .obj [("locationName", jGetD point "locationName" (.str "Unknown")),
        ("st", jGetD point "st" (jGetD point "time" (.str "Unknown"))),
        ("et", jGetD point "et" (.str "Unknown"))]

/-- The calling_points comprehension of extra_state_attributes:
service.get("subsequentCallingPoints", [defaulting to a one-element list
holding an empty mapping])[0].get("callingPoint", default empty list),
one view per point in iteration order. -/
def attr_calling_points (service : JValue) : Except String (List JValue) :=
  match pyDictGet service "subsequentCallingPoints" (.arr [.obj []]) with
  | .error e => .error e
  | .ok grp =>
    match pyIndexZero grp with
    | .error e => .error e
    | .ok first =>
      match pyDictGet first "callingPoint" (.arr []) with
      | .error e => .error e
      | .ok cps =>
        match pyIter cps with
        | .error e => .error e
        | .ok pts => pts.mapM attr_point_view

/-
Shape predicates used to state which documents make the destination scan
of get_destination_data run to completion, and the match predicate that
scan computes.
-/

/-- True on a mapping value. -/
def isObj : JValue → Bool
  | .obj _ => true
  | _ => false

/-- A destination field shape on which the scan cannot raise: a list of
mappings, or any non-list value (a mapping matches directly, anything
else falls through). -/
def wfDest : JValue → Bool
  | .arr ds => ds.all isObj
  | _ => true

/-- A service on which one scan step cannot raise: a mapping whose
destination field (default empty list) is well shaped. -/
def wfService (svc : JValue) : Bool :=
  isObj svc && wfDest (jGetD svc "destination" (.arr []))

/-- The destination match computed by get_destination_data for one
service: on a destination list, some element carries the station code in
its crs field; on a single destination mapping, that mapping does. -/
def matchesDest (station : String) (svc : JValue) : Bool :=
  match jGetD svc "destination" (.arr []) with
  | .arr ds => ds.any (crsMatches station)
  | .obj dfs => crsMatches station (.obj dfs)
  | _ => false

/-
Concrete documents used by counterexamples and witnesses.
-/

/-- A service bound for both PAD and RDG, with calling points. -/
def padService : JValue :=
  .obj [("destination", .arr [.obj [("crs", .str "PAD")], .obj [("crs", .str "RDG")]]),
        ("std", .str "10:00"),
        ("etd", .str "On time"),
        ("subsequentCallingPoints",
          .arr [.obj [("callingPoint", .arr [.obj [("locationName", .str "Reading")]])]])]

/-- A departure board holding the one service padService. -/
def padBoard : JValue := .obj [("trainServices", .arr [padService])]

/-- A board whose trainServices field is a non-empty mapping instead of a
list: Python iterates its keys, which are strings. -/
def mapServicesBoard : JValue :=
  .obj [("trainServices", .obj [("x", .null)])]

/-- A board whose only matching service carries an unparseable std. -/
def garbageStdBoard : JValue :=
  .obj [("trainServices",
          .arr [.obj [("destination", .obj [("crs", .str "PAD")]),
                      ("std", .str "garbage")]])]

/-- A board whose only matching service has no std field. -/
def noStdBoard : JValue :=
  .obj [("trainServices",
          .arr [.obj [("destination", .obj [("crs", .str "PAD")])]])]


/-
Helper lemmas.
-/

theorem alookup_eraseKey_self (k : String) :
    ∀ fs : List (String × JValue), alookup (eraseKey fs k) k = none := by
  intro fs
  induction fs with
  | nil => rfl
  | cons p rest ih =>
    unfold eraseKey
    by_cases h : p.1 = k
    · rw [if_pos h]; exact ih
    · rw [if_neg h]
      unfold alookup
      rw [if_neg h]
      exact ih

theorem alookup_eraseKey_ne (k k1 : String) (hne : k1 ≠ k) :
    ∀ fs : List (String × JValue), alookup (eraseKey fs k) k1 = alookup fs k1 := by
  intro fs
  induction fs with
  | nil => rfl
  | cons p rest ih =>
    unfold eraseKey
    by_cases h : p.1 = k
    · rw [if_pos h]
      have hp : p.1 ≠ k1 := fun hc => hne (hc ▸ h)
      conv_rhs => unfold alookup
      rw [if_neg hp]
      exact ih
    · rw [if_neg h]
      unfold alookup
      by_cases h1 : p.1 = k1
      · rw [if_pos h1, if_pos h1]
      · rw [if_neg h1, if_neg h1]; exact ih

theorem find_dest_isObj (st : String) :
    ∀ (l : List JValue) (svc : JValue),
      find_dest l st = .ok (some svc) → ∃ fs, svc = .obj fs := by
  intro l
  induction l with
  | nil => intro svc h; simp [find_dest] at h
  | cons x rest ih =>
    intro svc h
    cases x with
    | obj fs =>
      unfold find_dest at h
      simp only [pyDictGet] at h
      cases hdv : (alookup fs "destination").getD (.arr []) with
      | arr ds =>
        simp only [hdv] at h
        cases hc : find_crs ds st with
        | error e =>
          simp only [hc] at h
          exact Except.noConfusion h
        | ok b =>
          cases b with
          | true =>
            simp only [hc, Except.ok.injEq, Option.some.injEq] at h
            exact ⟨fs, h.symm⟩
          | false =>
            simp only [hc] at h
            exact ih svc h
      | obj dfs =>
        simp only [hdv] at h
        by_cases hm : crsMatches st (.obj dfs) = true
        · simp only [hm, if_true, Except.ok.injEq, Option.some.injEq] at h
          exact ⟨fs, h.symm⟩
        · rw [if_neg hm] at h
          exact ih svc h
      | null => simp only [hdv] at h; exact ih svc h
      | bool b => simp only [hdv] at h; exact ih svc h
      | num n => simp only [hdv] at h; exact ih svc h
      | str s => simp only [hdv] at h; exact ih svc h
    | null => simp [find_dest, pyDictGet] at h
    | bool b => simp [find_dest, pyDictGet] at h
    | num n => simp [find_dest, pyDictGet] at h
    | str s => simp [find_dest, pyDictGet] at h
    | arr xs => simp [find_dest, pyDictGet] at h

theorem get_destination_data_isObj (raw : JValue) (st : String) (svc : JValue)
    (h : get_destination_data raw st = .ok svc) : ∃ fs, svc = .obj fs := by
  unfold get_destination_data at h
  cases hg : pyDictGet (get_dataJ raw) "trainServices" (.arr []) with
  | error e =>
    simp only [hg] at h
    exact Except.noConfusion h
  | ok services =>
    simp only [hg] at h
    cases hi : pyIter services with
    | error e =>
      simp only [hi] at h
      exact Except.noConfusion h
    | ok l =>
      simp only [hi] at h
      cases hf : find_dest l st with
      | error e =>
        simp only [hf] at h
        exact Except.noConfusion h
      | ok o =>
        cases o with
        | some v =>
          simp only [hf, Except.ok.injEq] at h
          obtain ⟨fs, hfs⟩ := find_dest_isObj st l v hf
          exact ⟨fs, h ▸ hfs⟩
        | none =>
          simp only [hf, Except.ok.injEq] at h
          exact ⟨[], h.symm⟩

theorem find_crs_eq_any (st : String) :
    ∀ ds : List JValue, ds.all isObj = true →
      find_crs ds st = .ok (ds.any (crsMatches st)) := by
  intro ds
  induction ds with
  | nil => intro h; rfl
  | cons d rest ih =>
    intro h
    rw [List.all_cons, Bool.and_eq_true] at h
    obtain ⟨hd, hrest⟩ := h
    cases d <;> simp [isObj] at hd
    case obj dfs =>
      by_cases hm : crsMatches st (JValue.obj dfs) = true
      · simp [find_crs, hm]
      · rw [Bool.not_eq_true] at hm
        simp [find_crs, hm, ih hrest]

theorem find_dest_eq_find? (st : String) :
    ∀ l : List JValue, l.all wfService = true →
      find_dest l st = .ok (l.find? (matchesDest st)) := by
  intro l
  induction l with
  | nil => intro h; rfl
  | cons svc rest ih =>
    intro h
    rw [List.all_cons, Bool.and_eq_true] at h
    obtain ⟨hs, hrest⟩ := h
    unfold wfService at hs
    rw [Bool.and_eq_true] at hs
    obtain ⟨ho, hwd⟩ := hs
    cases svc <;> simp [isObj] at ho
    case obj fs =>
      unfold find_dest
      simp only [pyDictGet]
      cases hdv : (alookup fs "destination").getD (.arr []) with
      | arr ds =>
        have hall : ds.all isObj = true := by
          simpa [wfDest, jGetD, hdv] using hwd
        by_cases hm : ds.any (crsMatches st) = true
        · have hmd : matchesDest st (JValue.obj fs) = true := by
            simp only [matchesDest, jGetD, hdv]; exact hm
          simp only [find_crs_eq_any st ds hall, hm, List.find?_cons_of_pos rest hmd]
        · rw [Bool.not_eq_true] at hm
          have hmd : matchesDest st (JValue.obj fs) = false := by
            simp only [matchesDest, jGetD, hdv]; exact hm
          have hneg : ¬ matchesDest st (JValue.obj fs) = true := by simp [hmd]
          simp only [find_crs_eq_any st ds hall, hm, ih hrest,
                     List.find?_cons_of_neg rest hneg]
      | obj dfs =>
        by_cases hm : crsMatches st (.obj dfs) = true
        · have hmd : matchesDest st (JValue.obj fs) = true := by
            simp only [matchesDest, jGetD, hdv]; exact hm
          simp only [hm, if_true, List.find?_cons_of_pos rest hmd]
        · have hmd : matchesDest st (JValue.obj fs) = false := by
            simp only [matchesDest, jGetD, hdv]
            exact Bool.not_eq_true _ |>.mp hm
          have hneg : ¬ matchesDest st (JValue.obj fs) = true := by simp [hmd]
          rw [if_neg hm]
          simp only [ih hrest, List.find?_cons_of_neg rest hneg]
      | null =>
        have hmd : matchesDest st (JValue.obj fs) = false := by
          simp only [matchesDest, jGetD, hdv]
        have hneg : ¬ matchesDest st (JValue.obj fs) = true := by simp [hmd]
        simp only [ih hrest, List.find?_cons_of_neg rest hneg]
      | bool b =>
        have hmd : matchesDest st (JValue.obj fs) = false := by
          simp only [matchesDest, jGetD, hdv]
        have hneg : ¬ matchesDest st (JValue.obj fs) = true := by simp [hmd]
        simp only [ih hrest, List.find?_cons_of_neg rest hneg]
      | num n =>
        have hmd : matchesDest st (JValue.obj fs) = false := by
          simp only [matchesDest, jGetD, hdv]
        have hneg : ¬ matchesDest st (JValue.obj fs) = true := by simp [hmd]
        simp only [ih hrest, List.find?_cons_of_neg rest hneg]
      | str s =>
        have hmd : matchesDest st (JValue.obj fs) = false := by
          simp only [matchesDest, jGetD, hdv]
        have hneg : ¬ matchesDest st (JValue.obj fs) = true := by simp [hmd]
        simp only [ih hrest, List.find?_cons_of_neg rest hneg]

/-
Claim C2. The claim as stated fails: for a non-empty mapping (or string)
in trainServices the scan iterates keys (or characters) and the attribute
access on the string element raises, so the accessors do not return their
empty defaults. For every absent-or-empty trainServices the claim holds.
-/

/-- Claim C2, counterexample: on a board whose trainServices field is a
non-empty mapping, get_destination_data and get_calling_points raise
AttributeError instead of returning an empty mapping and empty sequence. -/
theorem claim_C2_counterexample :
    get_destination_data mapServicesBoard "PAD" = .error "AttributeError"
    ∧ get_calling_points mapServicesBoard "PAD" = .error "AttributeError" :=
  ⟨rfl, rfl⟩

/-- Claim C2, amended: for every RawBoard whose trainServices field is
absent or empty (an empty list, an empty mapping, or an empty string),
and every target code, get_destination_data returns an empty mapping and
get_calling_points returns an empty sequence, without raising. -/
theorem claim_C2_amended (raw : JValue) (station : String)
    (fs : List (String × JValue)) (hraw : get_dataJ raw = .obj fs)
    (hsv : alookup fs "trainServices" = none
        ∨ alookup fs "trainServices" = some (.arr [])
        ∨ alookup fs "trainServices" = some (.obj [])
        ∨ alookup fs "trainServices" = some (.str "")) :
    get_destination_data raw station = .ok (.obj [])
    ∧ get_calling_points raw station = .ok [] := by
  have hdd : get_destination_data raw station = .ok (.obj []) := by
    unfold get_destination_data
    rw [hraw]
    simp only [pyDictGet]
    rcases hsv with h | h | h | h <;> rw [h] <;> rfl
  refine ⟨hdd, ?_⟩
  unfold get_calling_points
  rw [hdd]
  rfl

/-- Claim C2, witness for the amended claim at a board with no
trainServices field. -/
theorem claim_C2_witness :
    get_destination_data (.obj []) "PAD" = .ok (.obj [])
    ∧ get_calling_points (.obj []) "PAD" = .ok [] :=
  claim_C2_amended (.obj []) "PAD" [] rfl (Or.inl rfl)

/-- Claim C3: get_destination_data scans trainServices in upstream order
and returns the first service whose destination matches the target code
(a single destination record matches on its crs field, a destination list
matches when any element carries the code), with an empty mapping when no
service matches; in particular a service whose destination list carries
the codes PAD and RDG is returned, the same service, for either code. -/
theorem claim_C3_first_match :
    (∀ (raw : JValue) (station : String) (fs : List (String × JValue))
        (svcs : List JValue),
      get_dataJ raw = .obj fs →
      alookup fs "trainServices" = some (.arr svcs) →
      svcs.all wfService = true →
      get_destination_data raw station
        = .ok ((svcs.find? (matchesDest station)).getD (.obj [])))
    ∧ get_destination_data padBoard "PAD" = .ok padService
    ∧ get_destination_data padBoard "RDG" = .ok padService := by
  refine ⟨?_, rfl, rfl⟩
  intro raw station fs svcs hraw hsv hwf
  unfold get_destination_data
  rw [hraw]
  simp only [pyDictGet]
  rw [hsv]
  simp only [Option.getD_some, pyIter]
  rw [find_dest_eq_find? station svcs hwf]
  cases svcs.find? (matchesDest station) <;> rfl

/-- Claim C3, witness: the first-match statement applied to the concrete
board holding the PAD and RDG bound service. -/
theorem claim_C3_witness :
    get_destination_data padBoard "RDG"
      = .ok (([padService].find? (matchesDest "RDG")).getD (.obj [])) :=
  claim_C3_first_match.1 padBoard "RDG"
    [("trainServices", .arr [padService])] [padService] rfl rfl rfl

/-- Claim C5, evaluation at the failing input: on a board with no
matching service, get_destination_data returns the empty mapping, its
destination field defaults to the empty list, and indexing that list
raises IndexError instead of producing the default Unknown Destination. -/
theorem claim_C5_failing :
    get_destination_data (.obj []) "PAD" = .ok (.obj [])
    ∧ get_destination_name (.obj []) "PAD" = .error "IndexError" :=
  ⟨rfl, rfl⟩

/-- Claim C7: the details returned by get_service_details never carry the
subsequentCallingPoints key, while the service returned by
get_destination_data (a pure read over an unchanged document, hence the
same value before and after the details call) keeps all its keys: the
details are computed on a copy and agree with the matched service on
every other key. -/
theorem claim_C7_details_no_calling_points (raw : JValue) (crs : String) (svc : JValue)
    (h : get_destination_data raw crs = .ok svc) :
    ∃ d, get_service_details raw crs = .ok d
      ∧ jLookup d "subsequentCallingPoints" = none
      ∧ (pyTruthy svc = true →
          ∀ k, k ≠ "subsequentCallingPoints" → jLookup d k = jLookup svc k) := by
  obtain ⟨fs, hfs⟩ := get_destination_data_isObj raw crs svc h
  subst hfs
  by_cases ht : pyTruthy (JValue.obj fs) = true
  · refine ⟨.obj (eraseKey fs "subsequentCallingPoints"), ?_, ?_, ?_⟩
    · unfold get_service_details
      rw [h]
      simp only [ht, if_true]
    · exact alookup_eraseKey_self "subsequentCallingPoints" fs
    · intro _ k hk
      exact alookup_eraseKey_ne "subsequentCallingPoints" k hk fs
  · refine ⟨.obj [], ?_, rfl, ?_⟩
    · unfold get_service_details
      rw [h]
      rw [Bool.not_eq_true] at ht
      simp [ht]
    · intro hc
      exact absurd hc ht

/-- Claim C7, witness: the stored PAD service carries calling points,
the returned details do not. -/
theorem claim_C7_witness :
    (jLookup padService "subsequentCallingPoints").isSome = true
    ∧ ∃ d, get_service_details padBoard "PAD" = .ok d
        ∧ jLookup d "subsequentCallingPoints" = none
        ∧ (pyTruthy padService = true →
            ∀ k, k ≠ "subsequentCallingPoints" → jLookup d k = jLookup padService k) :=
  ⟨rfl, claim_C7_details_no_calling_points padBoard "PAD" padService rfl⟩

/-- Claim C6: when the update cycle runs with the gate open and receives
a fetch outcome that is not a mapping (the failure value None, or any
non-mapping document), it sets the display state to the diagnostic
string and leaves the stored last-known data unchanged; async_update is
a total function, modelling that the try block of the source lets no
exception propagate to the host. -/
theorem claim_C6_invalid_response (st : SensorState) (result : Option JValue)
    (h : ∀ gs : List (String × JValue), result ≠ some (.obj gs)) :
    (async_update true result st).1.state = some "Error: Invalid API response"
    ∧ (async_update true result st).1.last_data = st.last_data := by
  cases result with
  | none => exact ⟨rfl, rfl⟩
  | some r =>
    cases r with
    | obj gs => exact absurd rfl (h gs)
    | null => exact ⟨rfl, rfl⟩
    | bool b => exact ⟨rfl, rfl⟩
    | num n => exact ⟨rfl, rfl⟩
    | str s => exact ⟨rfl, rfl⟩
    | arr xs => exact ⟨rfl, rfl⟩

/-- Claim C6, witness at the failed-fetch outcome None. -/
theorem claim_C6_witness :
    (async_update true none (SensorState.init "KGX" "PAD")).1.state
      = some "Error: Invalid API response"
    ∧ (async_update true none (SensorState.init "KGX" "PAD")).1.last_data
      = (SensorState.init "KGX" "PAD").last_data :=
  claim_C6_invalid_response (SensorState.init "KGX" "PAD") none
    (by intro gs hc; exact Option.noConfusion hc)

/-- Claim C9: the service-hours gate reports unavailable exactly on the
complement of the half-open interval from the start hour (inclusive) to
the end hour (exclusive), with the default hours 5 and 23 from the
constructor; and an update cycle whose gate is closed only sets the
display state to the no-services string and reports that the fetch
operation was not invoked. -/
theorem claim_C9_service_hours :
    (∀ hour, is_service_available hour default_service_start_hour
          default_service_end_hour = false
        ↔ (hour < 5 ∨ 23 ≤ hour))
    ∧ (∀ hour s e, is_service_available hour s e = false ↔ (hour < s ∨ e ≤ hour))
    ∧ (∀ (hour s e : Nat) (st : SensorState) (result : Option JValue),
        is_service_available hour s e = false →
        async_update (is_service_available hour s e) result st
          = ({ st with state := some "No train services expected" }, false)) := by
  have hgen : ∀ hour s e : Nat,
      is_service_available hour s e = false ↔ (hour < s ∨ e ≤ hour) := by
    intro hour s e
    by_cases h : hour < s ∨ e ≤ hour <;> simp [is_service_available, h]
  refine ⟨fun hour => hgen hour 5 23, hgen, ?_⟩
  intro hour s e st result h
  rw [h]
  rfl

/-- Claim C9, witness at three in the morning. -/
theorem claim_C9_witness :
    is_service_available 3 default_service_start_hour default_service_end_hour = false
    ∧ async_update (is_service_available 3 5 23) none (SensorState.init "KGX" "PAD")
        = ({ SensorState.init "KGX" "PAD" with
             state := some "No train services expected" }, false) :=
  ⟨(claim_C9_service_hours.1 3).mpr (Or.inl (by decide)),
   claim_C9_service_hours.2.2 3 5 23 (SensorState.init "KGX" "PAD") none rfl⟩

/-- Claim C1: state derivation. On an update with a mapping result, an
empty (or absent, hence defaulted-empty) trainServices list yields the
no-services state; a non-empty list yields the parse of the first
service. Reading the etd of the first service case-insensitively:
delayed gives Delayed, cancelled gives Cancelled, on time formats the
std field as HH:MM when it parses, any other etd is itself parsed and
formatted as HH:MM, and every parse failure gives Invalid time. -/
theorem claim_C1_state_derivation :
    (∀ (st : SensorState) (fs : List (String × JValue)),
      (alookup fs "trainServices").getD (.arr []) = .arr [] →
      (async_update true (some (.obj fs)) st).1.state
        = some "No train services available for this station")
    ∧ (∀ (st : SensorState) (fs : List (String × JValue)) (first : JValue)
         (rest : List JValue) (out : String),
        alookup fs "trainServices" = some (.arr (first :: rest)) →
        parse_train_time first = .ok out →
        (async_update true (some (.obj fs)) st).1.state = some out)
    ∧ (∀ (sfs : List (String × JValue)) (e : String),
        alookup sfs "etd" = some (.str e) → pyLower e = "delayed" →
        parse_train_time (.obj sfs) = .ok "Delayed")
    ∧ (∀ (sfs : List (String × JValue)) (e : String),
        alookup sfs "etd" = some (.str e) → pyLower e = "cancelled" →
        parse_train_time (.obj sfs) = .ok "Cancelled")
    ∧ (∀ (sfs : List (String × JValue)) (e s : String) (hm : Nat × Nat),
        alookup sfs "etd" = some (.str e) → pyLower e = "on time" →
        alookup sfs "std" = some (.str s) → parseTime s = some hm →
        parse_train_time (.obj sfs) = .ok (formatHM hm))
    ∧ (∀ (sfs : List (String × JValue)) (e s : String),
        alookup sfs "etd" = some (.str e) → pyLower e = "on time" →
        alookup sfs "std" = some (.str s) → parseTime s = none →
        parse_train_time (.obj sfs) = .ok "Invalid time")
    ∧ (∀ (sfs : List (String × JValue)) (e : String) (hm : Nat × Nat),
        alookup sfs "etd" = some (.str e) →
        pyLower e ≠ "delayed" → pyLower e ≠ "cancelled" → pyLower e ≠ "on time" →
        parseTime (pyLower e) = some hm →
        parse_train_time (.obj sfs) = .ok (formatHM hm))
    ∧ (∀ (sfs : List (String × JValue)) (e : String),
        alookup sfs "etd" = some (.str e) →
        pyLower e ≠ "delayed" → pyLower e ≠ "cancelled" → pyLower e ≠ "on time" →
        parseTime (pyLower e) = none →
        parse_train_time (.obj sfs) = .ok "Invalid time") := by
  refine ⟨?_, ?_, ?_, ?_, ?_, ?_, ?_, ?_⟩
  · intro st fs h
    simp only [async_update, if_true, h]
  · intro st fs first rest out hsv hp
    simp only [async_update, if_true, hsv, Option.getD_some, hp]
  · intro sfs e he hlow
    simp only [parse_train_time, pyDictGet, he, Option.getD_some, hlow]
    simp [pyCapitalize]
  · intro sfs e he hlow
    simp only [parse_train_time, pyDictGet, he, Option.getD_some, hlow]
    simp [pyCapitalize]
  · intro sfs e s hm he hlow hs hp
    simp only [parse_train_time, pyDictGet, he, Option.getD_some, hlow]
    simp only [jGetD, hs, Option.getD_some]
    simp [hp]
  · intro sfs e s he hlow hs hp
    simp only [parse_train_time, pyDictGet, he, Option.getD_some, hlow]
    simp only [jGetD, hs, Option.getD_some]
    simp [hp]
  · intro sfs e hm he hne1 hne2 hne3 hp
    simp only [parse_train_time, pyDictGet, he, Option.getD_some]
    simp [hne1, hne2, hne3, hp]
  · intro sfs e he hne1 hne2 hne3 hp
    simp only [parse_train_time, pyDictGet, he, Option.getD_some]
    simp [hne1, hne2, hne3, hp]

/-- Claim C1, witness: each branch of the derivation at a concrete
service. -/
theorem claim_C1_witness :
    (async_update true (some (.obj [])) (SensorState.init "KGX" "PAD")).1.state
      = some "No train services available for this station"
    ∧ (async_update true
        (some (.obj [("trainServices", .arr [.obj [("etd", .str "Delayed")]])]))
        (SensorState.init "KGX" "PAD")).1.state = some "Delayed"
    ∧ parse_train_time (.obj [("etd", .str "DELAYED")]) = .ok "Delayed"
    ∧ parse_train_time (.obj [("etd", .str "Cancelled")]) = .ok "Cancelled"
    ∧ parse_train_time (.obj [("etd", .str "On time"), ("std", .str "14:05:00")])
        = .ok (formatHM (14, 5))
    ∧ parse_train_time (.obj [("etd", .str "On time"), ("std", .str "garbage")])
        = .ok "Invalid time"
    ∧ parse_train_time (.obj [("etd", .str "14:32")]) = .ok (formatHM (14, 32))
    ∧ parse_train_time (.obj [("etd", .str "garbage")]) = .ok "Invalid time" :=
  ⟨claim_C1_state_derivation.1 (SensorState.init "KGX" "PAD") [] rfl,
   claim_C1_state_derivation.2.1 (SensorState.init "KGX" "PAD")
     [("trainServices", .arr [.obj [("etd", .str "Delayed")]])]
     (.obj [("etd", .str "Delayed")]) [] "Delayed" rfl rfl,
   claim_C1_state_derivation.2.2.1 [("etd", .str "DELAYED")] "DELAYED" rfl rfl,
   claim_C1_state_derivation.2.2.2.1 [("etd", .str "Cancelled")] "Cancelled" rfl rfl,
   claim_C1_state_derivation.2.2.2.2.1 [("etd", .str "On time"), ("std", .str "14:05:00")]
     "On time" "14:05:00" (14, 5) rfl rfl rfl rfl,
   claim_C1_state_derivation.2.2.2.2.2.1 [("etd", .str "On time"), ("std", .str "garbage")]
     "On time" "garbage" rfl rfl rfl rfl,
   claim_C1_state_derivation.2.2.2.2.2.2.1 [("etd", .str "14:32")] "14:32" (14, 32)
     rfl (by decide) (by decide) (by decide) rfl,
   claim_C1_state_derivation.2.2.2.2.2.2.2 [("etd", .str "garbage")] "garbage"
     rfl (by decide) (by decide) (by decide) rfl⟩

/-- On a list of mapping points the view comprehension succeeds and maps
each point to its total view. -/
theorem mapM_attr_point_view :
    ∀ pts : List JValue, pts.all isObj = true →
      pts.mapM attr_point_view = .ok (pts.map attr_point_viewT) := by
  intro pts
  induction pts with
  | nil => intro h; rfl
  | cons p rest ih =>
    intro h
    rw [List.all_cons, Bool.and_eq_true] at h
    obtain ⟨hp, hrest⟩ := h
    cases p <;> simp [isObj] at hp
    case obj pfs =>
      have hv : attr_point_view (.obj pfs) = .ok (attr_point_viewT (.obj pfs)) := rfl
      rw [List.mapM_cons, hv, ih hrest]
      rfl

/-- Claim C4, counterexample: a service whose subsequentCallingPoints
field is present but an empty sequence makes the attribute builder index
an empty list, raising IndexError instead of yielding an empty view. -/
theorem claim_C4_counterexample :
    attr_calling_points (.obj [("subsequentCallingPoints", .arr [])])
      = .error "IndexError" := rfl

/-- Claim C4, amended: when subsequentCallingPoints is absent the default
one-empty-group list makes the view empty without error; when a first
group exists but has no callingPoint field the view is empty; when a
first group exists with a callingPoint list of mapping points, the view
lists those points in their original order. -/
theorem claim_C4_amended :
    (∀ sfs : List (String × JValue),
      alookup sfs "subsequentCallingPoints" = none →
      attr_calling_points (.obj sfs) = .ok [])
    ∧ (∀ (sfs gfs : List (String × JValue)) (grest : List JValue),
        alookup sfs "subsequentCallingPoints" = some (.arr (.obj gfs :: grest)) →
        alookup gfs "callingPoint" = none →
        attr_calling_points (.obj sfs) = .ok [])
    ∧ (∀ (sfs gfs : List (String × JValue)) (grest pts : List JValue),
        alookup sfs "subsequentCallingPoints" = some (.arr (.obj gfs :: grest)) →
        alookup gfs "callingPoint" = some (.arr pts) →
        pts.all isObj = true →
        attr_calling_points (.obj sfs) = .ok (pts.map attr_point_viewT)) := by
  refine ⟨?_, ?_, ?_⟩
  · intro sfs h
    unfold attr_calling_points
    simp only [pyDictGet, h, Option.getD_none]
    rfl
  · intro sfs gfs grest h hg
    unfold attr_calling_points
    simp only [pyDictGet, h, Option.getD_some, pyIndexZero, hg, Option.getD_none]
    rfl
  · intro sfs gfs grest pts h hg hall
    unfold attr_calling_points
    simp only [pyDictGet, h, Option.getD_some, pyIndexZero, hg, pyIter]
    exact mapM_attr_point_view pts hall

/-- Claim C4, witness: absence of the field, a group without points, and
the concrete PAD service with one calling point. -/
theorem claim_C4_witness :
    attr_calling_points (.obj [("std", .str "10:00")]) = .ok []
    ∧ attr_calling_points (.obj [("subsequentCallingPoints", .arr [.obj []])]) = .ok []
    ∧ attr_calling_points padService
        = .ok ([JValue.obj [("locationName", .str "Reading")]].map attr_point_viewT) :=
  ⟨claim_C4_amended.1 [("std", .str "10:00")] rfl,
   claim_C4_amended.2.1 [("subsequentCallingPoints", .arr [.obj []])] [] [] rfl rfl,
   claim_C4_amended.2.2
     [("destination", .arr [.obj [("crs", .str "PAD")], .obj [("crs", .str "RDG")]]),
      ("std", .str "10:00"),
      ("etd", .str "On time"),
      ("subsequentCallingPoints",
        .arr [.obj [("callingPoint", .arr [.obj [("locationName", .str "Reading")]])]])]
     [("callingPoint", .arr [.obj [("locationName", .str "Reading")]])]
     [] [.obj [("locationName", .str "Reading")]] rfl rfl rfl⟩

/-- Claim C8, counterexample: on a board whose matching service carries
the unparseable std garbage, get_state propagates the uncaught parser
exception instead of returning a formatted time or the string None. -/
theorem claim_C8_counterexample :
    get_state garbageStdBoard "PAD" = .error "ParserError" := rfl

/-- Claim C8, amended: get_state returns the std of the matched service
details reformatted as HH:MM when a truthy std parses as a time, and the
literal string None when no service matches (empty details) or the std
field is absent or falsy; a truthy std that fails to parse raises the
uncaught parser exception. -/
theorem claim_C8_amended :
    (∀ (raw : JValue) (crs : String),
      get_service_details raw crs = .ok (.obj []) →
      get_state raw crs = .ok "None")
    ∧ (∀ (raw : JValue) (crs : String) (fs : List (String × JValue)),
        get_service_details raw crs = .ok (.obj fs) →
        pyTruthy ((alookup fs "std").getD .null) = false →
        get_state raw crs = .ok "None")
    ∧ (∀ (raw : JValue) (crs : String) (fs : List (String × JValue)) (s : String)
         (hm : Nat × Nat),
        get_service_details raw crs = .ok (.obj fs) →
        alookup fs "std" = some (.str s) → s ≠ "" →
        parseTime s = some hm →
        get_state raw crs = .ok (formatHM hm))
    ∧ (∀ (raw : JValue) (crs : String) (fs : List (String × JValue)) (s : String),
        get_service_details raw crs = .ok (.obj fs) →
        alookup fs "std" = some (.str s) → s ≠ "" →
        parseTime s = none →
        get_state raw crs = .error "ParserError") := by
  refine ⟨?_, ?_, ?_, ?_⟩
  · intro raw crs h
    unfold get_state
    rw [h]
    rfl
  · intro raw crs fs h hstd
    unfold get_state
    rw [h]
    by_cases ht : pyTruthy (JValue.obj fs) = true
    · simp only [ht, if_true, pyDictGet]
      rw [hstd]
      simp
    · rw [Bool.not_eq_true] at ht
      simp [ht]
  · intro raw crs fs s hm h hs hs0 hp
    have ht : pyTruthy (JValue.obj fs) = true := by
      cases fs with
      | nil => simp [alookup] at hs
      | cons q qs => rfl
    have hst : pyTruthy (JValue.str s) = true := by
      simp [pyTruthy, hs0]
    unfold get_state
    rw [h]
    simp only [ht, if_true, pyDictGet, hs, Option.getD_some, hst, hp]
  · intro raw crs fs s h hs hs0 hp
    have ht : pyTruthy (JValue.obj fs) = true := by
      cases fs with
      | nil => simp [alookup] at hs
      | cons q qs => rfl
    have hst : pyTruthy (JValue.str s) = true := by
      simp [pyTruthy, hs0]
    unfold get_state
    rw [h]
    simp only [ht, if_true, pyDictGet, hs, Option.getD_some, hst, hp]

/-- Claim C8, witness: no match, a match without std, and the concrete
PAD service whose std formats to ten o clock. -/
theorem claim_C8_witness :
    get_state (.obj []) "PAD" = .ok "None"
    ∧ get_state noStdBoard "PAD" = .ok "None"
    ∧ get_state padBoard "PAD" = .ok (formatHM (10, 0)) :=
  ⟨claim_C8_amended.1 (.obj []) "PAD" rfl,
   claim_C8_amended.2.1 noStdBoard "PAD"
     [("destination", .obj [("crs", .str "PAD")])] rfl rfl,
   claim_C8_amended.2.2.1 padBoard "PAD"
     [("destination", .arr [.obj [("crs", .str "PAD")], .obj [("crs", .str "RDG")]]),
      ("std", .str "10:00"),
      ("etd", .str "On time")]
     "10:00" (10, 0) rfl rfl (by decide) rfl⟩

/-- Claim C10, counterexample: when locationName is present but the empty
string, the first call returns the empty string yet does not durably
cache it (the cache test is truthiness, not presence), so after populate
replaces the document a later call returns the fresh name instead of the
first returned string. -/
theorem claim_C10_counterexample :
    get_station_name (populate (.obj [("locationName", .str "")]) ApiData.init)
      = .ok (.str "", populate (.obj [("locationName", .str "")]) ApiData.init)
    ∧ get_station_name (populate (.obj [("locationName", .str "X")])
        (populate (.obj [("locationName", .str "")]) ApiData.init))
      = .ok (.str "X", { raw_result := .obj [("locationName", .str "X")],
                         station_name := .str "X" })
    ∧ JValue.str "" ≠ JValue.str "X" := by
  refine ⟨rfl, rfl, ?_⟩
  intro hc
  injection hc with h
  exact absurd h (by decide)

/-- Claim C10, amended: once get_station_name has returned a truthy
(non-empty) value — including the default Unknown Station when
locationName was absent — that value is cached, and every later call
returns it unchanged, even after populate replaces the raw document with
one carrying a different locationName; a falsy returned value (such as
an empty locationName string) is not cached and is recomputed. -/
theorem claim_C10_amended (s : ApiDataState) (v : JValue) (s2 : ApiDataState)
    (h : get_station_name s = .ok (v, s2)) (ht : pyTruthy v = true) :
    ∀ j : JValue, get_station_name (populate j s2) = .ok (v, populate j s2) := by
  have hv : s2.station_name = v := by
    unfold get_station_name at h
    by_cases hts : pyTruthy s.station_name = true
    · rw [if_pos hts] at h
      have h2 := (Except.ok.injEq _ _).mp h
      have hv1 : s.station_name = v := congrArg Prod.fst h2
      have hs2 : s = s2 := congrArg Prod.snd h2
      rw [← hs2]
      exact hv1
    · rw [if_neg hts] at h
      cases hg : pyDictGet (get_dataJ s.raw_result) "locationName"
          (.str "Unknown Station") with
      | error e =>
        rw [hg] at h
        exact Except.noConfusion h
      | ok w =>
        rw [hg] at h
        have h2 := (Except.ok.injEq _ _).mp h
        have hv1 : w = v := congrArg Prod.fst h2
        have hs2 : { s with station_name := w } = s2 := congrArg Prod.snd h2
        rw [← hs2]
        exact hv1
  intro j
  unfold get_station_name
  have hpt : pyTruthy (populate j s2).station_name = true := by
    show pyTruthy s2.station_name = true
    rw [hv]
    exact ht
  rw [if_pos hpt]
  show Except.ok (s2.station_name, populate j s2) = _
  rw [hv]

/-- Claim C10, witness: a cached name survives a later populate with a
document carrying a different locationName. -/
theorem claim_C10_witness :
    get_station_name (populate (.obj [("locationName", .str "Leeds")])
        { raw_result := .obj [("locationName", .str "York")],
          station_name := .str "York" })
      = .ok (.str "York",
          populate (.obj [("locationName", .str "Leeds")])
            { raw_result := .obj [("locationName", .str "York")],
              station_name := .str "York" }) :=
  claim_C10_amended
    { raw_result := .obj [("locationName", .str "York")], station_name := .str "" }
    (.str "York")
    { raw_result := .obj [("locationName", .str "York")], station_name := .str "York" }
    rfl rfl (.obj [("locationName", .str "Leeds")])

end NationalRail
